import Mathlib

/-!
A verification development for the `sysinfo` diagnostic tool (`src/main.go`).

The Go program is a one-shot collector of process/host facts.  Each probe
reads one pseudo-file (or performs one system call) and parses it; `main`
aggregates the probe results into a `SysInfo` record and renders it as a
table or as JSON.

The shallow embedding below factors every probe into a pure function of the
raw file contents it would have read: file I/O is represented by an
`Except String String` argument (`.error e` = the read failed, `.ok data` =
the file's contents).  Go machine integers are modelled as `Nat`/`Int` with
explicit `% 2^64` where overflow matters; Go `float64` values are modelled
as exact rationals (`ℚ`): range/rounding behaviour of IEEE doubles is not
modelled, which is faithful for every property stated here (the claims only
depend on parse success, exact zero tests and the `-1` short-circuit).
-/

/-! ### Character classes and numeral parsing

`isGoWhite` models `unicode.IsSpace` restricted to the characters that can
occur in the ASCII pseudo-files the program reads (space, TAB, LF, VT, FF,
CR, NEL, NBSP).  `isScanSpace` is the space class of `fmt`'s scanning verbs:
any such whitespace except newline.  `isDigitC` is the ASCII digit test used
by `strconv` and by `fmt`'s `%d` verb. -/

deriving instance DecidableEq for Except

def isGoWhite (c : Char) : Bool :=
  c.toNat = 32 || c.toNat = 9 || c.toNat = 10 || c.toNat = 13 ||
  c.toNat = 11 || c.toNat = 12 || c.toNat = 133 || c.toNat = 160

def isScanSpace (c : Char) : Bool :=
  c.toNat = 32 || c.toNat = 9 || c.toNat = 13 || c.toNat = 11 || c.toNat = 12

def isDigitC (c : Char) : Bool :=
  48 ≤ c.toNat && c.toNat ≤ 57

/-- Value of a digit string, most significant digit first. -/
def digitsVal (cs : List Char) : ℕ :=
  cs.foldl (fun a c => a * 10 + (c.toNat - 48)) 0

/-- Strip the leading characters `p` from `cs`; `none` when `cs` does not
start with `p`.  (`(stripLead p cs).isSome` models Go `strings.HasPrefix`.) -/
def stripLead : List Char → List Char → Option (List Char)
  | [], cs => some cs
  | _ :: _, [] => none
  | p :: ps, c :: cs => if p = c then stripLead ps cs else none

/-- Model of Go `strings.Split(s, "\n")` on the character list: the list of
lines, where a trailing newline yields a trailing empty line and the empty
string yields one empty line. -/
def splitNl : List Char → List (List Char)
  | [] => [[]]
  | c :: rest =>
    match splitNl rest with
    | [] => [[]]
    | l :: ls => if c = '\n' then [] :: l :: ls else (c :: l) :: ls

/-- Model of Go `strings.TrimSpace`: drop whitespace from both ends. -/
def trimList (cs : List Char) : List Char :=
  ((cs.dropWhile isGoWhite).reverse.dropWhile isGoWhite).reverse

def goTrim (s : String) : String := String.mk (trimList s.data)

/-- Accumulator-based splitter behind `goFields`. -/
def fieldsAux (cur : List Char) : List Char → List (List Char)
  | [] => if cur = [] then [] else [cur.reverse]
  | c :: rest =>
    if isGoWhite c then
      if cur = [] then fieldsAux [] rest
      else cur.reverse :: fieldsAux [] rest
    else fieldsAux (c :: cur) rest

/-- Model of Go `strings.Fields`: maximal runs of non-whitespace characters. -/
def goFields (s : String) : List String :=
  (fieldsAux [] s.data).map String.mk

/-- Model of Go `strconv.ParseUint(s, 10, 64)`: a non-empty all-digit
string whose value fits in 64 bits; anything else (sign, empty, stray
characters, overflow) is an error (`none`). -/
def parseUint64 (s : String) : Option ℕ :=
  let cs := s.toList
  if cs ≠ [] ∧ cs.all isDigitC ∧ digitsVal cs < 2 ^ 64 then
    some (digitsVal cs)
  else none

/-- Model of Go `strconv.ParseFloat(s, 64)` on decimal numerals, with the
exact rational value in place of the rounded IEEE double.  Accepted:
`[+-]? (digits [. digits?] | . digits) ([eE] [+-]? digits)?`.  The `inf` /
`nan` keywords, hexadecimal mantissas and IEEE range errors are not
modelled; no claim depends on them. -/
def parseGoFloat (s : String) : Option ℚ :=
  match s.toList with
  | [] => none
  | cs0 =>
    let (neg, cs) : Bool × List Char :=
      match cs0 with
      | '+' :: r => (false, r)
      | '-' :: r => (true, r)
      | r => (false, r)
    let intPart := cs.takeWhile isDigitC
    let cs1 := cs.dropWhile isDigitC
    let (fracPart, cs2) : List Char × List Char :=
      match cs1 with
      | '.' :: r => (r.takeWhile isDigitC, r.dropWhile isDigitC)
      | r => ([], r)
    if intPart = [] ∧ fracPart = [] then none
    else
      let mantNum : Int := digitsVal intPart * 10 ^ fracPart.length + digitsVal fracPart
      let signedNum : Int := if neg then -mantNum else mantNum
      match cs2 with
      | [] => some (mkRat signedNum (10 ^ fracPart.length))
      | e :: r =>
        if e = 'e' ∨ e = 'E' then
          let (expNeg, ds) : Bool × List Char :=
            match r with
            | '+' :: t => (false, t)
            | '-' :: t => (true, t)
            | t => (false, t)
          if ds ≠ [] ∧ ds.all isDigitC then
            if expNeg then some (mkRat signedNum (10 ^ fracPart.length * 10 ^ digitsVal ds))
            else some (mkRat (signedNum * 10 ^ digitsVal ds) (10 ^ fracPart.length))
          else none
        else none

/-! ### `readTrim` and the cgroup probes (`src/main.go:247-298`)

`readTrim(path)` reads a file and returns `strings.TrimSpace` of its
contents.  Here the read itself is the `Except String String` argument. -/

def readTrim (read : Except String String) : Except String String :=
  match read with
  | .error e => .error e
  | .ok s => .ok (goTrim s)

/-- The kernel's "no limit" sentinel threshold, `uint64(1<<63) - 4096`. -/
def unlimitedThreshold : ℕ := 2 ^ 63 - 4096

/-- `readCgroupMemoryLimit` (`src/main.go:255-269`) as a function of the
raw contents of `/sys/fs/cgroup/memory/memory.limit_in_bytes`.  `.ok none`
means "unlimited" (absent value). -/
def readCgroupMemoryLimit (read : Except String String) : Except String (Option ℕ) :=
  match readTrim read with
  | .error e => .error e
  | .ok value =>
    match parseUint64 value with
    | none => .error ("invalid uint64: " ++ value)
    | some num =>
      if num ≥ unlimitedThreshold then .ok none
      else .ok (some num)

/-- `readCgroupCPULimit` (`src/main.go:271-298`) as a function of the raw
contents of `cpu.cfs_quota_us` and `cpu.cfs_period_us`.  Both files are
read (and trimmed) first; then the `"-1"` quota short-circuit; then both
values are parsed as floats; then the zero-period guard; finally the
division. -/
def readCgroupCPULimit (quotaRead periodRead : Except String String) :
    Except String (Option ℚ) :=
  match readTrim quotaRead with
  | .error e => .error e
  | .ok quotaStr =>
    match readTrim periodRead with
    | .error e => .error e
    | .ok periodStr =>
      if quotaStr = "-1" then .ok none
      else
        match parseGoFloat quotaStr with
        | none => .error ("invalid float: " ++ quotaStr)
        | some quota =>
          match parseGoFloat periodStr with
          | none => .error ("invalid float: " ++ periodStr)
          | some period =>
            if period = 0 then .error "cpu.cfs_period_us is zero"
            else .ok (some (quota / period))

example : (readCgroupCPULimit (.ok "50000") (.ok "100000")).isOk = true := by decide
example : parseGoFloat "50000" = some 50000 := by decide
example : parseGoFloat "0" = some 0 := by decide
example : parseGoFloat "0.5" = some (mkRat 5 10) := by decide
example : parseGoFloat "" = none := by decide
example : parseGoFloat "1e2" = some 100 := by decide
example : readCgroupCPULimit (.ok " -1\n") (.ok "bogus") = .ok none := by decide
example : readCgroupCPULimit (.ok "50000") (.ok "0") = .error "cpu.cfs_period_us is zero" := by decide
example : readCgroupMemoryLimit (.ok "9223372036854771712") = .ok none := by decide
example : readCgroupMemoryLimit (.ok "536870912\n") = .ok (some 536870912) := by decide

/-! ### Claims C3, C4, C8, C9: the cgroup probes -/

/-- C3: whenever the trimmed cgroup CPU quota string is exactly `"-1"`, the
CPU limit probe returns an absent value (unlimited) with no error,
regardless of the period file's contents — even when the period is zero or
unparseable — because the `"-1"` check happens before any numeric
parsing. -/
theorem quotaMinusOneShortCircuit (qc pc : String) (h : goTrim qc = "-1") :
    readCgroupCPULimit (.ok qc) (.ok pc) = .ok none := by
  simp [readCgroupCPULimit, readTrim, h]

/-- Witness for `quotaMinusOneShortCircuit`: an unparseable period and a
zero period, with a quota that trims to `"-1"`. -/
theorem quotaMinusOneShortCircuit_witness :
    (goTrim " -1\n" = "-1" ∧ readCgroupCPULimit (.ok " -1\n") (.ok "notanumber") = .ok none)
    ∧ (goTrim "-1" = "-1" ∧ readCgroupCPULimit (.ok "-1") (.ok "0") = .ok none) :=
  ⟨⟨by decide, quotaMinusOneShortCircuit " -1\n" "notanumber" (by decide)⟩,
   ⟨by decide, quotaMinusOneShortCircuit "-1" "0" (by decide)⟩⟩

/-- C9: the period file is read before the `"-1"` quota check, so an
unreadable period file makes the CPU limit probe return the read error even
when the trimmed quota string is exactly `"-1"`. -/
theorem periodReadErrorBeatsMinusOne (qc e : String) (_h : goTrim qc = "-1") :
    readCgroupCPULimit (.ok qc) (.error e) = .error e := by
  simp [readCgroupCPULimit, readTrim]

/-- Witness for `periodReadErrorBeatsMinusOne`. -/
theorem periodReadErrorBeatsMinusOne_witness :
    readCgroupCPULimit (.ok "-1") (.error "no such file or directory") =
      .error "no such file or directory" :=
  periodReadErrorBeatsMinusOne "-1" "no such file or directory" (by decide)

/-- C4: for a readable memory limit file whose trimmed contents parse as an
unsigned 64-bit integer `v`: if `v ≥ 2^63 − 4096` the probe returns an
absent value (unlimited) with no error; if `v < 2^63 − 4096` it returns
exactly `v`; if parsing fails, or the read itself fails, an error is
propagated. -/
theorem memoryLimitSentinel (raw : String) :
    (∀ v : ℕ, parseUint64 (goTrim raw) = some v →
      (v ≥ 2 ^ 63 - 4096 → readCgroupMemoryLimit (.ok raw) = .ok none)
      ∧ (v < 2 ^ 63 - 4096 → readCgroupMemoryLimit (.ok raw) = .ok (some v)))
    ∧ (parseUint64 (goTrim raw) = none →
        ∃ e, readCgroupMemoryLimit (.ok raw) = .error e)
    ∧ (∀ e, readCgroupMemoryLimit (.error e) = .error e) := by
  refine ⟨fun v hv => ⟨fun hge => ?_, fun hlt => ?_⟩, fun hn => ?_, fun e => ?_⟩
  · have h : unlimitedThreshold ≤ v := by unfold unlimitedThreshold; omega
    simp [readCgroupMemoryLimit, readTrim, hv, h]
  · have h : ¬ unlimitedThreshold ≤ v := by unfold unlimitedThreshold; omega
    simp [readCgroupMemoryLimit, readTrim, hv, h]
  · exact ⟨"invalid uint64: " ++ goTrim raw, by simp [readCgroupMemoryLimit, readTrim, hn]⟩
  · simp [readCgroupMemoryLimit, readTrim]

/-- Witness for `memoryLimitSentinel`: the sentinel value `2^63 − 4096`
itself reads as unlimited, a small value reads back exactly, and a
non-numeric file is an error. -/
theorem memoryLimitSentinel_witness :
    readCgroupMemoryLimit (.ok "9223372036854771712") = .ok none
    ∧ readCgroupMemoryLimit (.ok " 536870912\n") = .ok (some 536870912)
    ∧ (∃ e, readCgroupMemoryLimit (.ok "max") = .error e)
    ∧ readCgroupMemoryLimit (.error "permission denied") = .error "permission denied" :=
  ⟨((memoryLimitSentinel "9223372036854771712").1 9223372036854771712 (by decide)).1 (by decide),
   ((memoryLimitSentinel " 536870912\n").1 536870912 (by decide)).2 (by decide),
   (memoryLimitSentinel "max").2.1 (by decide),
   (memoryLimitSentinel "max").2.2 "permission denied"⟩

/-- C8: when the trimmed quota string is not `"-1"` and both the quota and
the period parse as floats, a zero period makes the probe fail with the
distinct "zero period" error — the division is never performed, so no
infinity or NaN can arise. -/
theorem zeroPeriodGuard (qc pc : String) (q : ℚ)
    (hne : goTrim qc ≠ "-1")
    (hq : parseGoFloat (goTrim qc) = some q)
    (hp : parseGoFloat (goTrim pc) = some 0) :
    readCgroupCPULimit (.ok qc) (.ok pc) = .error "cpu.cfs_period_us is zero" := by
  simp [readCgroupCPULimit, readTrim, hne, hq, hp]

/-- Witness for `zeroPeriodGuard`: quota `50000`, period `0`. -/
theorem zeroPeriodGuard_witness :
    readCgroupCPULimit (.ok "50000") (.ok "0") = .error "cpu.cfs_period_us is zero" :=
  zeroPeriodGuard "50000" "0" 50000 (by decide) (by decide) (by decide)

/-! ### The RSS probe `getRSS` (`src/main.go:142-157`)

`getRSS` splits `/proc/self/status` into lines, walks them in order, and on
the first line with the `VmRSS:` head runs
`fmt.Sscanf(line, "VmRSS: %d kB", &rss)` and returns `rss` with no error —
whatever the scan did.  `Sscanf` assigns `rss` as soon as the `%d` verb
parses an integer; a failure before or at `%d` leaves `rss` at its zero
value, and the trailing `" kB"` of the format can no longer affect `rss`
either way.  `vmrssScan` returns `some v` exactly when `%d` assigned `v`. -/

/-- `%d` after its leading-space skip: optional sign, then a maximal run of
digits (at least one), range-checked against Go's 64-bit `int`. -/
def scanNatTok (cs : List Char) : Option ℕ :=
  let ds := cs.takeWhile isDigitC
  if ds = [] then none else some (digitsVal ds)

def scanIntTok (cs : List Char) : Option Int :=
  match cs with
  | [] => none
  | c :: rest =>
    if c = '-' then
      (scanNatTok rest).bind (fun n => if n ≤ 2 ^ 63 then some (-(n : Int)) else none)
    else if c = '+' then
      (scanNatTok rest).bind (fun n => if n < 2 ^ 63 then some ((n : ℕ) : Int) else none)
    else
      (scanNatTok (c :: rest)).bind (fun n => if n < 2 ^ 63 then some ((n : ℕ) : Int) else none)

/-- The format's literal space: it must consume at least one space
character unless the input is already exhausted; then `%d` runs on what is
left. -/
def scanRestVmRSS : List Char → Option Int
  | [] => none
  | c :: cs => if isScanSpace c then scanIntTok ((c :: cs).dropWhile isScanSpace) else none

def vmrssTag : List Char := ['V', 'm', 'R', 'S', 'S', ':']

/-- The value `Sscanf(line, "VmRSS: %d kB", &rss)` stores into `rss`:
`some v` when the `%d` verb assigned `v`, `none` when `rss` was left at 0. -/
def vmrssScan (line : List Char) : Option Int :=
  match stripLead vmrssTag line with
  | none => none
  | some rest => scanRestVmRSS rest

/-- `getRSS` as a function of the contents of `/proc/self/status`. -/
def getRSS (read : Except String String) : Except String Int :=
  match read with
  | .error e => .error e
  | .ok data =>
    match (splitNl data.data).find? (fun l => (stripLead vmrssTag l).isSome) with
    | some line => .ok ((vmrssScan line).getD 0)
    | none => .error "VmRSS not found"

/-- Claim-side pattern (from the spec's words): the line fully matches
`"VmRSS: <int> kB"` under `Sscanf` space semantics. -/
def vmrssFullPattern (line : List Char) : Bool :=
  match stripLead vmrssTag line with
  | none => false
  | some rest =>
    match rest with
    | [] => false
    | c :: _ =>
      if isScanSpace c then
        let t1 := rest.dropWhile isScanSpace
        let t2 := match t1 with | '-' :: t => t | '+' :: t => t | t => t
        let ds := t2.takeWhile isDigitC
        let t3 := t2.dropWhile isDigitC
        if ds = [] then false
        else
          match t3 with
          | [] => false
          | c2 :: _ =>
            if isScanSpace c2 then (t3.dropWhile isScanSpace) = ['k', 'B'] else false
      else false

example : vmrssFullPattern "VmRSS:     4096 kB".data = true := by decide
example : vmrssFullPattern "VmRSS: 42".data = false := by decide
example : getRSS (.ok "Name:\tx\nVmRSS:\t    4096 kB\nThreads: 1") = .ok 4096 := by decide
example : getRSS (.ok "Name:\tx\nThreads: 1") = .error "VmRSS not found" := by decide

/-! ### Claims C5 and C10: the RSS probe -/

theorem stripLead_self (p cs : List Char) : stripLead p (p ++ cs) = some cs := by
  induction p with
  | nil => rfl
  | cons a as ih => simp [stripLead, ih]

theorem takeWhile_digits_append (l : List Char) (c : Char) (r : List Char)
    (hl : ∀ x ∈ l, isDigitC x = true) (hc : isDigitC c = false) :
    (l ++ c :: r).takeWhile isDigitC = l ∧ (l ++ c :: r).dropWhile isDigitC = c :: r := by
  induction l with
  | nil => simp [List.takeWhile_cons, List.dropWhile_cons, hc]
  | cons a as ih =>
    have ha : isDigitC a = true := hl a (by simp)
    have h2 := ih (fun x hx => hl x (by simp [hx]))
    simp [List.takeWhile_cons, List.dropWhile_cons, ha, h2.1, h2.2]

theorem digit_not_scanSpace {c : Char} (h : isDigitC c = true) : isScanSpace c = false := by
  simp [isDigitC] at h
  simp [isScanSpace]
  omega

theorem digit_ne_minus {c : Char} (h : isDigitC c = true) : c ≠ '-' := by
  rintro rfl
  exact absurd h (by decide)

theorem digit_ne_plus {c : Char} (h : isDigitC c = true) : c ≠ '+' := by
  rintro rfl
  exact absurd h (by decide)

/-- On a line that is literally `VmRSS: <digits> kB`, the scan assigns
exactly the value of the digit run. -/
theorem vmrssScan_wellformed (ds : List Char) (hne : ds ≠ [])
    (hdig : ∀ c ∈ ds, isDigitC c = true) (hbound : digitsVal ds < 2 ^ 63) :
    vmrssScan (vmrssTag ++ ' ' :: (ds ++ [' ', 'k', 'B'])) = some ((digitsVal ds : ℕ) : Int) := by
  obtain ⟨d, ds', rfl⟩ : ∃ d ds', ds = d :: ds' := by
    cases ds with
    | nil => exact absurd rfl hne
    | cons d ds' => exact ⟨d, ds', rfl⟩
  have hd : isDigitC d = true := hdig d (by simp)
  have hsp : isScanSpace ' ' = true := by decide
  have hdrop : ((' ' :: (d :: ds' ++ [' ', 'k', 'B']) : List Char).dropWhile isScanSpace)
      = d :: (ds' ++ [' ', 'k', 'B']) := by
    simp [List.dropWhile_cons, hsp, digit_not_scanSpace hd]
  have htake : List.takeWhile isDigitC (d :: (ds' ++ [' ', 'k', 'B'])) = d :: ds' := by
    have h3 := (takeWhile_digits_append (d :: ds') ' ' ['k', 'B'] hdig (by decide)).1
    rwa [List.cons_append] at h3
  unfold vmrssScan
  rw [stripLead_self]
  show scanRestVmRSS (' ' :: (d :: ds' ++ [' ', 'k', 'B'])) = some ((digitsVal (d :: ds') : ℕ) : Int)
  simp only [scanRestVmRSS]
  rw [if_pos hsp, hdrop]
  simp only [scanIntTok]
  rw [if_neg (digit_ne_minus hd), if_neg (digit_ne_plus hd)]
  simp only [scanNatTok]
  rw [htake]
  simp
  omega

/-- C5 (amended): for every process-status content whose FIRST line with
the `VmRSS:` head is exactly of the form `VmRSS: <digits> kB`, the RSS
probe returns exactly the number written there (first match wins); for
content with no `VmRSS:`-headed line at all it fails with the "not found"
error.  (The amendment: the number is taken from the first `VmRSS:`-headed
line, not from the first fully well-formed one — see
`rssFirstTaggedLineWins_cex`.) -/
theorem rssFirstTaggedLineWins (content : String) (ds : List Char)
    (hne : ds ≠ []) (hdig : ∀ c ∈ ds, isDigitC c = true) (hbound : digitsVal ds < 2 ^ 63) :
    ((splitNl content.data).find? (fun l => (stripLead vmrssTag l).isSome)
        = some (vmrssTag ++ ' ' :: (ds ++ [' ', 'k', 'B'])) →
      getRSS (.ok content) = .ok ((digitsVal ds : ℕ) : Int))
    ∧ ((splitNl content.data).find? (fun l => (stripLead vmrssTag l).isSome) = none →
      getRSS (.ok content) = .error "VmRSS not found") := by
  constructor
  · intro hfind
    simp [getRSS, hfind, vmrssScan_wellformed ds hne hdig hbound]
  · intro hfind
    simp [getRSS, hfind]

/-- Witness for `rssFirstTaggedLineWins`: the spec's end-to-end example
(`VmRSS: 4096 kB` yields 4096) and the not-found branch. -/
theorem rssFirstTaggedLineWins_witness :
    getRSS (.ok "Name:\tsysinfo\nVmRSS: 4096 kB\nThreads:\t1") = .ok 4096
    ∧ getRSS (.ok "Name:\tsysinfo\nThreads:\t1") = .error "VmRSS not found" :=
  ⟨((rssFirstTaggedLineWins "Name:\tsysinfo\nVmRSS: 4096 kB\nThreads:\t1"
      ['4', '0', '9', '6'] (by decide) (by decide) (by decide)).1 (by decide)).trans (by decide),
   (rssFirstTaggedLineWins "Name:\tsysinfo\nThreads:\t1"
      ['4', '2'] (by decide) (by decide) (by decide)).2 (by decide)⟩

/-- Counterexample to C5 as stated: this content contains the line
`VmRSS: 42 kB` (well-formed, value 42), but an earlier `VmRSS:`-headed line
is malformed, so the probe stops at that earlier line and returns 0, not
42 — the result is not independent of the surrounding content. -/
theorem rssFirstTaggedLineWins_cex :
    ((vmrssTag ++ ' ' :: (['4', '2'] ++ [' ', 'k', 'B'])) ∈ splitNl ("VmRSS: x kB\nVmRSS: 42 kB").data)
    ∧ vmrssFullPattern (vmrssTag ++ ' ' :: (['4', '2'] ++ [' ', 'k', 'B'])) = true
    ∧ digitsVal ['4', '2'] = 42
    ∧ getRSS (.ok "VmRSS: x kB\nVmRSS: 42 kB") = .ok 0
    ∧ getRSS (.ok "VmRSS: x kB\nVmRSS: 42 kB") ≠ .ok 42 := by decide

/-- C10 (amended): when the first `VmRSS:`-headed line's integer scan fails
(malformed or missing number, so `%d` assigns nothing), the probe returns
the zero-initialized value 0 as a successful reading — no error.  (The
amendment: this covers exactly the lines where the `%d` verb fails; a line
such as `VmRSS: 42` with a parseable number but a missing ` kB` tail
returns the scanned 42, not 0 — see `rssScanFailureYieldsZero_cex`.) -/
theorem rssScanFailureYieldsZero (content : String) (line : List Char)
    (hfind : (splitNl content.data).find? (fun l => (stripLead vmrssTag l).isSome) = some line)
    (hbad : vmrssScan line = none) :
    getRSS (.ok content) = .ok 0 := by
  simp [getRSS, hfind, hbad]

/-- Witness for `rssScanFailureYieldsZero`: a malformed number. -/
theorem rssScanFailureYieldsZero_witness :
    getRSS (.ok "VmRSS: junk kB") = .ok 0 :=
  rssScanFailureYieldsZero "VmRSS: junk kB" ("VmRSS: junk kB").data (by decide) (by decide)

/-- Counterexample to C10 as stated: `VmRSS: 42` has a `VmRSS:` head and
does NOT match the full pattern `VmRSS: <int> kB` (no ` kB` tail), yet the
probe returns 42 — the scanned value is returned, not the zero value, so
"remainder does not match the pattern" is too broad a condition. -/
theorem rssScanFailureYieldsZero_cex :
    (stripLead vmrssTag ("VmRSS: 42").data).isSome = true
    ∧ vmrssFullPattern ("VmRSS: 42").data = false
    ∧ getRSS (.ok "VmRSS: 42") = .ok 42
    ∧ getRSS (.ok "VmRSS: 42") ≠ .ok 0 := by decide

/-! ### The disk probe `getDisksInfo` (`src/main.go:203-245`) and `humanMB`

The per-mount `unix.Statfs` system call is a parameter
`statfs : String → Option Statfs` (`none` = the call failed for that
mountpoint, in which case the source skips the entry silently).  Go's
`uint64` arithmetic is modelled with an explicit `% 2^64`, and the
`uint64(stat.Bsize)` conversion of the signed `Bsize` is two's-complement
(`goUint64OfInt64`). -/

structure DiskInfo where
  Mountpoint : String
  FSType : String
  Total : ℕ
  Free : ℕ
deriving DecidableEq

structure Statfs where
  Blocks : ℕ
  Bfree : ℕ
  Bsize : Int
deriving DecidableEq

def goUint64OfInt64 (i : Int) : ℕ := (i % (2 ^ 64 : Int)).toNat

/-- The entry built from one surviving mounts line (`src/main.go:234-242`). -/
def diskOfStat (mountpoint fsType : String) (stat : Statfs) : DiskInfo :=
  { Mountpoint := mountpoint
    FSType := fsType
    Total := stat.Blocks * goUint64OfInt64 stat.Bsize % 2 ^ 64
    Free := stat.Bfree * goUint64OfInt64 stat.Bsize % 2 ^ 64 }

/-- The loop body of `getDisksInfo`: skip empty lines, skip lines with
fewer than 3 fields, call statfs (failure skips the line silently), skip
the three pseudo-filesystem types, otherwise append. -/
def disksOfLines (statfs : String → Option Statfs) : List (List Char) → List DiskInfo
  | [] => []
  | line :: rest =>
    if line = [] then disksOfLines statfs rest
    else
      let fs := goFields (String.mk line)
      if fs.length < 3 then disksOfLines statfs rest
      else
        let mountpoint := fs.getD 1 ""
        let fsType := fs.getD 2 ""
        match statfs mountpoint with
        | none => disksOfLines statfs rest
        | some stat =>
          if fsType = "proc" ∨ fsType = "sysfs" ∨ fsType = "cgroup" then
            disksOfLines statfs rest
          else diskOfStat mountpoint fsType stat :: disksOfLines statfs rest

/-- `getDisksInfo` as a function of the contents of `/proc/mounts` and the
statfs oracle. -/
def getDisksInfo (read : Except String String) (statfs : String → Option Statfs) :
    Except String (List DiskInfo) :=
  match read with
  | .error e => .error e
  | .ok data => .ok (disksOfLines statfs (splitNl data.data))

/-- Go `fmt.Sprintf("%d MB", b/1024/1024)` (`src/main.go:132`). -/
def humanMB (b : ℕ) : String := toString (b / 1024 / 1024) ++ " MB"

/-- Spec-side description of one mounts line (claim C6's words): kept iff
it has at least 3 whitespace-separated fields and its filesystem type is
not exactly `proc`, `sysfs` or `cgroup`. -/
def mountOfLine (statfs : String → Statfs) (line : List Char) : Option DiskInfo :=
  let fs := goFields (String.mk line)
  if fs.length < 3 then none
  else if fs.getD 2 "" = "proc" ∨ fs.getD 2 "" = "sysfs" ∨ fs.getD 2 "" = "cgroup" then none
  else some (diskOfStat (fs.getD 1 "") (fs.getD 2 "") (statfs (fs.getD 1 "")))

/-- Spec-side description of the disk probe: the surviving entries in
encounter order. -/
def expectedMounts (statfs : String → Statfs) (lines : List (List Char)) : List DiskInfo :=
  lines.filterMap (mountOfLine statfs)

theorem disksOfLines_eq (st : String → Statfs) (lines : List (List Char)) :
    disksOfLines (fun mp => some (st mp)) lines = expectedMounts st lines := by
  induction lines with
  | nil => rfl
  | cons line rest ih =>
    simp only [expectedMounts] at ih ⊢
    by_cases h0 : line = []
    · subst h0
      rw [List.filterMap_cons_none (by rfl)]
      simp only [disksOfLines, if_true]
      exact ih
    · by_cases h3 : (goFields (String.mk line)).length < 3
      · rw [List.filterMap_cons_none (by simp only [mountOfLine]; rw [if_pos h3])]
        simp only [disksOfLines]
        rw [if_neg h0, if_pos h3]
        exact ih
      · by_cases hty : (goFields (String.mk line)).getD 2 "" = "proc"
            ∨ (goFields (String.mk line)).getD 2 "" = "sysfs"
            ∨ (goFields (String.mk line)).getD 2 "" = "cgroup"
        · rw [List.filterMap_cons_none (by simp only [mountOfLine]; rw [if_neg h3, if_pos hty])]
          simp only [disksOfLines]
          rw [if_neg h0, if_neg h3, if_pos hty]
          exact ih
        · rw [List.filterMap_cons_some (by simp only [mountOfLine]; rw [if_neg h3, if_neg hty])]
          simp only [disksOfLines]
          rw [if_neg h0, if_neg h3, if_neg hty, ih]

/-- C6: for every mounts-table content (with the per-mount statistics call
succeeding), the disk probe yields, without error, exactly the entries of
the lines with at least 3 whitespace-separated fields whose filesystem
type is not exactly `proc`, `sysfs` or `cgroup` — an exact, case-sensitive
comparison — in encounter order.  Lines with fewer than 3 fields are
skipped without error, and any other type string (`sysfsx` included) is
kept. -/
theorem disksFilterSpec (content : String) (st : String → Statfs) :
    getDisksInfo (.ok content) (fun mp => some (st mp)) =
      .ok (expectedMounts st (splitNl content.data)) := by
  simp only [getDisksInfo, disksOfLines_eq]

example :
    getDisksInfo (.ok "devfs /dev sysfsx rw 0 0\nshort line\nproc /proc proc rw 0 0")
      (fun _ => some ⟨100, 50, 512⟩) =
    .ok [⟨"/dev", "sysfsx", 51200, 25600⟩] := by decide

example :
    getDisksInfo (.ok "a b\n\nx\n") (fun _ => some ⟨100, 50, 512⟩) = .ok [] := by decide

/-- C7: for every mount whose statistics call succeeds, the probe computes
total bytes = block count × block size and free bytes = free block count ×
block size (as `uint64` products; exact whenever they fit in 64 bits); in
particular 1,000,000 blocks of 4096 bytes yield total = 4,096,000,000
bytes, which table mode renders as `3906 MB` by truncating integer
division by 1024×1024. -/
theorem diskTotalsAndRendering :
    (∀ (mp ty : String) (st : Statfs),
      st.Blocks * goUint64OfInt64 st.Bsize < 2 ^ 64 →
        (diskOfStat mp ty st).Total = st.Blocks * goUint64OfInt64 st.Bsize)
    ∧ (∀ (mp ty : String) (st : Statfs),
      st.Bfree * goUint64OfInt64 st.Bsize < 2 ^ 64 →
        (diskOfStat mp ty st).Free = st.Bfree * goUint64OfInt64 st.Bsize)
    ∧ getDisksInfo (.ok "/dev/sda1 / ext4 rw 0 0") (fun _ => some ⟨1000000, 250000, 4096⟩)
        = .ok [⟨"/", "ext4", 4096000000, 1024000000⟩]
    ∧ humanMB 4096000000 = "3906 MB" := by
  refine ⟨fun mp ty st h => ?_, fun mp ty st h => ?_, by decide, by decide⟩
  · simp [diskOfStat, Nat.mod_eq_of_lt h]
    omega
  · simp [diskOfStat, Nat.mod_eq_of_lt h]
    omega

/-- Witness for `diskTotalsAndRendering` at the spec's example statistics. -/
theorem diskTotalsAndRendering_witness :
    (diskOfStat "/" "ext4" ⟨1000000, 250000, 4096⟩).Total = 1000000 * goUint64OfInt64 4096
    ∧ (diskOfStat "/" "ext4" ⟨1000000, 250000, 4096⟩).Free = 250000 * goUint64OfInt64 4096 :=
  ⟨diskTotalsAndRendering.1 "/" "ext4" ⟨1000000, 250000, 4096⟩ (by decide),
   diskTotalsAndRendering.2.1 "/" "ext4" ⟨1000000, 250000, 4096⟩ (by decide)⟩

/-! ### The aggregate record and its JSON rendering (`src/main.go:23-37, 90-96`)

`SysInfo` mirrors the Go struct and its `json:` tags.  Go's `nil` pointers
and `nil` slice are `none`; a `nil` slice marshals to `null`, a `nil`
pointer with `omitempty` is omitted.  `Json` is the abstract syntax of the
document `json.MarshalIndent` produces (indentation is presentation only),
with JSON numbers as exact rationals.  `sysInfoOfJson` models
`json.Unmarshal` back into the struct: an object key is looked up by its
tag name (Go's case-insensitive fallback never fires on this document), a
missing key leaves the field at its zero value, a present key must convert
to the field's type, with `int`/`uint64` range checks; a type or range
mismatch fails the decode (`none`). -/

structure CgroupV1 where
  MemoryLimitBytes : Option ℕ
  CPULimitCores : Option ℚ
deriving DecidableEq

structure SysInfo where
  FDCount : Int
  VmRSS : Int
  ExePath : String
  CPUModel : String
  CPUCores : Int
  MemTotal : Int
  Mounts : Option (List DiskInfo)
  CgroupV1 : Option CgroupV1
deriving DecidableEq

inductive Json where
  | null : Json
  | num : ℚ → Json
  | str : String → Json
  | arr : List Json → Json
  | obj : List (String × Json) → Json

/-- `DiskInfo` has no `json:` tags, so `encoding/json` uses the Go field
names. -/
def diskToJson (d : DiskInfo) : Json :=
  .obj [("Mountpoint", .str d.Mountpoint), ("FSType", .str d.FSType),
        ("Total", .num d.Total), ("Free", .num d.Free)]

def cgroupToJson (c : CgroupV1) : Json :=
  .obj ((match c.MemoryLimitBytes with
         | none => []
         | some v => [("memory_limit_bytes", Json.num v)]) ++
        (match c.CPULimitCores with
         | none => []
         | some q => [("cpu_limit_cores", Json.num q)]))

def sysInfoToJson (s : SysInfo) : Json :=
  .obj ([("fd_count", Json.num s.FDCount),
         ("vmrss_bytes", Json.num s.VmRSS),
         ("exe_path", Json.str s.ExePath),
         ("cpu_model", Json.str s.CPUModel),
         ("cpu_cores", Json.num s.CPUCores),
         ("mem_total_kb", Json.num s.MemTotal),
         ("mounts", match s.Mounts with
                    | none => Json.null
                    | some l => Json.arr (l.map diskToJson))] ++
        (match s.CgroupV1 with
         | none => []
         | some c => [("cgroup_v1", cgroupToJson c)]))

def jLookup (kvs : List (String × Json)) (k : String) : Option Json :=
  match kvs with
  | [] => none
  | (k2, v) :: rest => if k2 = k then some v else jLookup rest k

def jInt (j : Json) : Option Int :=
  match j with
  | .num q => if q.den = 1 ∧ -(2 ^ 63) ≤ q.num ∧ q.num < 2 ^ 63 then some q.num else none
  | _ => none

def jNat64 (j : Json) : Option ℕ :=
  match j with
  | .num q => if q.den = 1 ∧ 0 ≤ q.num ∧ q.num < 2 ^ 64 then some q.num.toNat else none
  | _ => none

def jStr (j : Json) : Option String :=
  match j with
  | .str s => some s
  | _ => none

def jQ (j : Json) : Option ℚ :=
  match j with
  | .num q => some q
  | _ => none

/-- One struct field during unmarshalling: missing key = zero value,
present key must convert. -/
def jField (kvs : List (String × Json)) (k : String) (conv : Json → Option α) (dflt : α) :
    Option α :=
  match jLookup kvs k with
  | none => some dflt
  | some v => conv v

def diskOfJson (j : Json) : Option DiskInfo :=
  match j with
  | .obj kvs => do
      let mp ← jField kvs "Mountpoint" jStr ""
      let ty ← jField kvs "FSType" jStr ""
      let tot ← jField kvs "Total" jNat64 0
      let fr ← jField kvs "Free" jNat64 0
      pure ⟨mp, ty, tot, fr⟩
  | _ => none

def diskListOfJson : List Json → Option (List DiskInfo)
  | [] => some []
  | j :: rest => (diskOfJson j).bind fun d => (diskListOfJson rest).map (d :: ·)

def disksOfJson (j : Json) : Option (Option (List DiskInfo)) :=
  match j with
  | .null => some none
  | .arr xs => (diskListOfJson xs).map some
  | _ => none

def cgroupOfJson (j : Json) : Option CgroupV1 :=
  match j with
  | .obj kvs => do
      let ml ← jField kvs "memory_limit_bytes" (fun v => (jNat64 v).map some) none
      let cl ← jField kvs "cpu_limit_cores" (fun v => (jQ v).map some) none
      pure ⟨ml, cl⟩
  | _ => none

def sysInfoOfJson (j : Json) : Option SysInfo :=
  match j with
  | .obj kvs => do
      let fd ← jField kvs "fd_count" jInt 0
      let rss ← jField kvs "vmrss_bytes" jInt 0
      let path ← jField kvs "exe_path" jStr ""
      let model ← jField kvs "cpu_model" jStr ""
      let cores ← jField kvs "cpu_cores" jInt 0
      let mem ← jField kvs "mem_total_kb" jInt 0
      let mounts ← jField kvs "mounts" disksOfJson none
      let cg ← jField kvs "cgroup_v1" (fun v => (cgroupOfJson v).map some) none
      pure ⟨fd, rss, path, model, cores, mem, mounts, cg⟩
  | _ => none

def objKeys (j : Json) : List String :=
  match j with
  | .obj kvs => kvs.map (fun kv => kv.1)
  | _ => []

/-- The property every `SysInfo` built from actual Go data satisfies:
each numeric field fits its machine type (`int` is 64-bit on this
target). -/
def SysInfo.WF (s : SysInfo) : Prop :=
  -(2 ^ 63) ≤ s.FDCount ∧ s.FDCount < 2 ^ 63
  ∧ -(2 ^ 63) ≤ s.VmRSS ∧ s.VmRSS < 2 ^ 63
  ∧ -(2 ^ 63) ≤ s.CPUCores ∧ s.CPUCores < 2 ^ 63
  ∧ -(2 ^ 63) ≤ s.MemTotal ∧ s.MemTotal < 2 ^ 63
  ∧ (∀ d ∈ s.Mounts.getD [], d.Total < 2 ^ 64 ∧ d.Free < 2 ^ 64)
  ∧ ((s.CgroupV1.getD ⟨none, none⟩).MemoryLimitBytes).getD 0 < 2 ^ 64

theorem diskOfJson_roundtrip (d : DiskInfo) (h1 : d.Total < 2 ^ 64) (h2 : d.Free < 2 ^ 64) :
    diskOfJson (diskToJson d) = some d := by
  obtain ⟨mp, ty, tot, fr⟩ := d
  have h1n : tot < 18446744073709551616 := h1
  have h2n : fr < 18446744073709551616 := h2
  simp [diskToJson, diskOfJson, jField, jLookup, jStr, jNat64, h1n, h2n]

theorem diskListOfJson_roundtrip (l : List DiskInfo)
    (h : ∀ d ∈ l, d.Total < 2 ^ 64 ∧ d.Free < 2 ^ 64) :
    diskListOfJson (l.map diskToJson) = some l := by
  induction l with
  | nil => rfl
  | cons d rest ih =>
    have hd := h d (by simp)
    have hr := ih (fun x hx => h x (by simp [hx]))
    simp [diskListOfJson, diskOfJson_roundtrip d hd.1 hd.2, hr]

theorem cgroupOfJson_roundtrip (c : CgroupV1)
    (h : (c.MemoryLimitBytes).getD 0 < 2 ^ 64) :
    cgroupOfJson (cgroupToJson c) = some c := by
  obtain ⟨ml, cl⟩ := c
  cases ml with
  | none => cases cl <;> simp [cgroupToJson, cgroupOfJson, jField, jLookup, jQ]
  | some v =>
    have hn : v < 18446744073709551616 := by simpa using h
    cases cl <;> simp [cgroupToJson, cgroupOfJson, jField, jLookup, jQ, jNat64, hn]

theorem jInt_of_int (n : Int) (ha : -(2 ^ 63) ≤ n) (hb : n < 2 ^ 63) :
    jInt (.num (n : ℚ)) = some n := by
  simp only [jInt, Rat.num_intCast, Rat.den_intCast]
  rw [if_pos ⟨trivial, ha, hb⟩]

/-- C1: in JSON mode the serialized snapshot uses exactly the field names
`fd_count`, `vmrss_bytes`, `exe_path`, `cpu_model`, `cpu_cores`,
`mem_total_kb`, `mounts` and (only when a cgroup section is present)
`cgroup_v1`; the `cgroup_v1` key is omitted entirely — not emitted as
`null` — when no cgroup section is reported, and within it
`memory_limit_bytes` and `cpu_limit_cores` are each omitted when absent;
unmarshalling the marshalled document restores the record field for
field. -/
theorem jsonShapeAndRoundTrip (s : SysInfo) :
    objKeys (sysInfoToJson s) =
      ["fd_count", "vmrss_bytes", "exe_path", "cpu_model", "cpu_cores", "mem_total_kb",
        "mounts"] ++ (match s.CgroupV1 with | none => [] | some _ => ["cgroup_v1"])
    ∧ (∀ c, s.CgroupV1 = some c →
        objKeys (cgroupToJson c) =
          (match c.MemoryLimitBytes with | none => [] | some _ => ["memory_limit_bytes"]) ++
          (match c.CPULimitCores with | none => [] | some _ => ["cpu_limit_cores"]))
    ∧ (s.WF → sysInfoOfJson (sysInfoToJson s) = some s) := by
  obtain ⟨fd, rss, path, model, cores, mem, mounts, cg⟩ := s
  refine ⟨?_, ?_, ?_⟩
  · cases cg <;> simp [sysInfoToJson, objKeys]
  · intro c hc
    simp only at hc
    subst hc
    obtain ⟨ml, cl⟩ := c
    cases ml <;> cases cl <;> simp [cgroupToJson, objKeys]
  · intro hwf
    obtain ⟨h1, h2, h3, h4, h5, h6, h7, h8, hm, hcgb⟩ := hwf
    simp only at h1 h2 h3 h4 h5 h6 h7 h8 hm hcgb
    have hfd := jInt_of_int fd h1 h2
    have hrss := jInt_of_int rss h3 h4
    have hcores := jInt_of_int cores h5 h6
    have hmem := jInt_of_int mem h7 h8
    cases cg with
    | none =>
      cases mounts with
      | none =>
        simp [sysInfoToJson, sysInfoOfJson, jField, jLookup, jStr, disksOfJson,
          hfd, hrss, hcores, hmem]
      | some l =>
        have hml : ∀ d ∈ l, d.Total < 2 ^ 64 ∧ d.Free < 2 ^ 64 := by simpa using hm
        simp [sysInfoToJson, sysInfoOfJson, jField, jLookup, jStr, disksOfJson,
          hfd, hrss, hcores, hmem, diskListOfJson_roundtrip l hml]
    | some c =>
      have hcg : cgroupOfJson (cgroupToJson c) = some c :=
        cgroupOfJson_roundtrip c (by simpa using hcgb)
      cases mounts with
      | none =>
        simp [sysInfoToJson, sysInfoOfJson, jField, jLookup, jStr, disksOfJson,
          hfd, hrss, hcores, hmem, hcg]
      | some l =>
        have hml : ∀ d ∈ l, d.Total < 2 ^ 64 ∧ d.Free < 2 ^ 64 := by simpa using hm
        simp [sysInfoToJson, sysInfoOfJson, jField, jLookup, jStr, disksOfJson,
          hfd, hrss, hcores, hmem, hcg, diskListOfJson_roundtrip l hml]

/-- A concrete snapshot exercising every optional branch of the JSON
shape. -/
def sampleInfo : SysInfo :=
  { FDCount := 3, VmRSS := 4096, ExePath := "/usr/local/bin/sysinfo",
    CPUModel := "Intel", CPUCores := 8, MemTotal := 16384,
    Mounts := some [⟨"/", "ext4", 4096000000, 1024000000⟩],
    CgroupV1 := some ⟨some 536870912, none⟩ }

/-- Witness for `jsonShapeAndRoundTrip` at `sampleInfo`. -/
theorem jsonShapeAndRoundTrip_witness :
    objKeys (sysInfoToJson sampleInfo) =
      ["fd_count", "vmrss_bytes", "exe_path", "cpu_model", "cpu_cores", "mem_total_kb",
        "mounts", "cgroup_v1"]
    ∧ objKeys (cgroupToJson ⟨some 536870912, none⟩) = ["memory_limit_bytes"]
    ∧ sysInfoOfJson (sysInfoToJson sampleInfo) = some sampleInfo := by
  obtain ⟨k1, k2, k3⟩ := jsonShapeAndRoundTrip sampleInfo
  exact ⟨k1.trans (by decide), (k2 ⟨some 536870912, none⟩ rfl).trans (by decide),
    k3 (by constructor <;> decide)⟩

/-! ### The collector `main` (`src/main.go:39-130`)

`main` is a function of the eight probe results.  The FD-count and RSS
probes are fatal: on their failure `main` prints one message and returns
before building the record.  Every other probe failure is printed with
`fmt.Println` — which writes to standard output, not standard error — and
the Go zero value returned alongside the error is used for the field.
`runMain` returns the emitted (stream, message) pairs and the snapshot
handed to the renderer (`none` = aborted, no table and no JSON document).
`fmt.Println(label, err)` separates its operands with one space, hence the
trailing space inside each label below.  The only write to standard error
in the program is the late `json.MarshalIndent` failure report, which
cannot occur for the documents this record produces. -/

inductive OutStream where
  | stdout : OutStream
  | stderr : OutStream
deriving DecidableEq

structure ProbeResults where
  fd : Except String Int
  rss : Except String Int
  path : Except String String
  cpu : Except String (String × Int)
  mem : Except String Int
  disks : Except String (List DiskInfo)
  memLimit : Except String (Option ℕ)
  cpuLimit : Except String (Option ℚ)

/-- One non-fatal probe in `main`: on error the message goes to standard
output and the Go zero value is used; on success nothing is printed. -/
def nonfatal (res : Except String α) (label : String) (dflt : α) :
    List (OutStream × String) × α :=
  match res with
  | .error e => ([(OutStream.stdout, label ++ e)], dflt)
  | .ok v => ([], v)

def runMain (r : ProbeResults) : List (OutStream × String) × Option SysInfo :=
  match r.fd with
  | .error e => ([(OutStream.stdout, "FDs counting error:\t " ++ e)], none)
  | .ok fds =>
    match r.rss with
    | .error e => ([(OutStream.stdout, "VmRRS getting error:\t " ++ e)], none)
    | .ok vmrss =>
      let p := nonfatal r.path "Path getting error:\t " ""
      let c := nonfatal r.cpu "CPU info getting error:\t " ("", 0)
      let m := nonfatal r.mem "Mem info getting error:\t " 0
      let d := nonfatal r.disks "Disk info getting error:\t " []
      let ml := nonfatal r.memLimit "cgroup memory limit error:\t " none
      let cl := nonfatal r.cpuLimit "cgroup CPU limit error:\t " none
      (p.1 ++ c.1 ++ m.1 ++ d.1 ++ ml.1 ++ cl.1,
       some { FDCount := fds, VmRSS := vmrss, ExePath := p.2,
              CPUModel := c.2.1, CPUCores := c.2.2, MemTotal := m.2,
              Mounts := if d.2.isEmpty then none else some d.2,
              CgroupV1 := some ⟨ml.2, cl.2⟩ })

theorem nonfatal_stdout (res : Except String α) (label : String) (dflt : α)
    (x : OutStream × String) (hx : x ∈ (nonfatal res label dflt).1) : x.1 = OutStream.stdout := by
  cases res with
  | error e =>
    simp [nonfatal] at hx
    simp [hx]
  | ok v => simp [nonfatal] at hx

/-- C2 (amended): if the file-descriptor-count or RSS probe fails, the run
aborts with one printed error and no report (neither table nor JSON); if
any other probe fails, its error is printed — to standard output, like
every probe-error message in this program, not to an error stream — the
run continues, and the corresponding snapshot field keeps its
zero/empty/absent default value. -/
theorem collectorFatalAndNonfatal (r : ProbeResults) :
    (∀ e, r.fd = .error e →
      runMain r = ([(OutStream.stdout, "FDs counting error:\t " ++ e)], none))
    ∧ (∀ n e, r.fd = .ok n → r.rss = .error e →
      runMain r = ([(OutStream.stdout, "VmRRS getting error:\t " ++ e)], none))
    ∧ (∀ n m, r.fd = .ok n → r.rss = .ok m →
      (∃ info, (runMain r).2 = some info)
      ∧ Option.map SysInfo.FDCount (runMain r).2 = some n
      ∧ Option.map SysInfo.VmRSS (runMain r).2 = some m
      ∧ (∀ e, r.path = .error e →
          Option.map SysInfo.ExePath (runMain r).2 = some ""
          ∧ (OutStream.stdout, "Path getting error:\t " ++ e) ∈ (runMain r).1)
      ∧ (∀ e, r.cpu = .error e →
          Option.map SysInfo.CPUModel (runMain r).2 = some ""
          ∧ Option.map SysInfo.CPUCores (runMain r).2 = some 0
          ∧ (OutStream.stdout, "CPU info getting error:\t " ++ e) ∈ (runMain r).1)
      ∧ (∀ e, r.mem = .error e →
          Option.map SysInfo.MemTotal (runMain r).2 = some 0
          ∧ (OutStream.stdout, "Mem info getting error:\t " ++ e) ∈ (runMain r).1)
      ∧ (∀ e, r.disks = .error e →
          Option.map SysInfo.Mounts (runMain r).2 = some none
          ∧ (OutStream.stdout, "Disk info getting error:\t " ++ e) ∈ (runMain r).1)
      ∧ (∀ e, r.memLimit = .error e →
          Option.map (fun i => Option.map CgroupV1.MemoryLimitBytes i.CgroupV1) (runMain r).2
            = some (some none)
          ∧ (OutStream.stdout, "cgroup memory limit error:\t " ++ e) ∈ (runMain r).1)
      ∧ (∀ e, r.cpuLimit = .error e →
          Option.map (fun i => Option.map CgroupV1.CPULimitCores i.CgroupV1) (runMain r).2
            = some (some none)
          ∧ (OutStream.stdout, "cgroup CPU limit error:\t " ++ e) ∈ (runMain r).1))
    ∧ (∀ x ∈ (runMain r).1, x.1 = OutStream.stdout) := by
  obtain ⟨fd, rss, path, cpu, mem, disks, ml, cl⟩ := r
  cases fd with
  | error e =>
    refine ⟨?_, ?_, ?_, ?_⟩ <;> simp [runMain]
  | ok fds =>
    cases rss with
    | error e =>
      refine ⟨?_, ?_, ?_, ?_⟩ <;> simp [runMain]
    | ok vmrss =>
      refine ⟨by simp, by simp, ?_, ?_⟩
      · intro n m hn hm
        simp only [Except.ok.injEq] at hn hm
        subst hn
        subst hm
        refine ⟨⟨_, rfl⟩, by simp [runMain], by simp [runMain], ?_, ?_, ?_, ?_, ?_, ?_⟩
        · intro e he
          subst he
          simp [runMain, nonfatal]
        · intro e he
          subst he
          simp [runMain, nonfatal]
        · intro e he
          subst he
          simp [runMain, nonfatal]
        · intro e he
          subst he
          simp [runMain, nonfatal]
        · intro e he
          subst he
          simp [runMain, nonfatal]
        · intro e he
          subst he
          simp [runMain, nonfatal]
      · intro x hx
        simp only [runMain, List.mem_append] at hx
        rcases hx with ((((h1 | h2) | h3) | h4) | h5) | h6
        · exact nonfatal_stdout path "Path getting error:\t " "" x h1
        · exact nonfatal_stdout cpu "CPU info getting error:\t " ("", 0) x h2
        · exact nonfatal_stdout mem "Mem info getting error:\t " 0 x h3
        · exact nonfatal_stdout disks "Disk info getting error:\t " [] x h4
        · exact nonfatal_stdout ml "cgroup memory limit error:\t " none x h5
        · exact nonfatal_stdout cl "cgroup CPU limit error:\t " none x h6

/-- Probe results with both fatal probes succeeding and every non-fatal
probe failing. -/
def probesAllFail : ProbeResults :=
  { fd := .ok 5, rss := .ok 4096,
    path := .error "p", cpu := .error "c", mem := .error "m",
    disks := .error "d", memLimit := .error "ml", cpuLimit := .error "cl" }

/-- Witness for `collectorFatalAndNonfatal`: each fatal abort, and the
defaulted fields plus printed messages when every non-fatal probe fails. -/
theorem collectorFatalAndNonfatal_witness :
    runMain ⟨.error "boom", .ok 0, .ok "", .ok ("", 0), .ok 0, .ok [], .ok none, .ok none⟩
      = ([(OutStream.stdout, "FDs counting error:\t " ++ "boom")], none)
    ∧ runMain ⟨.ok 5, .error "gone", .ok "", .ok ("", 0), .ok 0, .ok [], .ok none, .ok none⟩
      = ([(OutStream.stdout, "VmRRS getting error:\t " ++ "gone")], none)
    ∧ Option.map SysInfo.ExePath (runMain probesAllFail).2 = some ""
    ∧ Option.map SysInfo.CPUModel (runMain probesAllFail).2 = some ""
    ∧ Option.map SysInfo.MemTotal (runMain probesAllFail).2 = some 0
    ∧ Option.map SysInfo.Mounts (runMain probesAllFail).2 = some none
    ∧ (OutStream.stdout, "cgroup memory limit error:\t " ++ "ml") ∈ (runMain probesAllFail).1
    ∧ Option.map (fun i => Option.map CgroupV1.CPULimitCores i.CgroupV1) (runMain probesAllFail).2
        = some (some none) := by
  have T := (collectorFatalAndNonfatal probesAllFail).2.2.1 5 4096 rfl rfl
  exact ⟨(collectorFatalAndNonfatal
            ⟨.error "boom", .ok 0, .ok "", .ok ("", 0), .ok 0, .ok [], .ok none, .ok none⟩).1
            "boom" rfl,
         (collectorFatalAndNonfatal
            ⟨.ok 5, .error "gone", .ok "", .ok ("", 0), .ok 0, .ok [], .ok none, .ok none⟩).2.1
            5 "gone" rfl rfl,
         (T.2.2.2.1 "p" rfl).1,
         (T.2.2.2.2.1 "c" rfl).1,
         (T.2.2.2.2.2.1 "m" rfl).1,
         (T.2.2.2.2.2.2.1 "d" rfl).1,
         (T.2.2.2.2.2.2.2.1 "ml" rfl).2,
         (T.2.2.2.2.2.2.2.2 "cl" rfl).1⟩

/-- Probe results where only the CPU probe fails. -/
def cpuFailOnly : ProbeResults :=
  { fd := .ok 5, rss := .ok 4096, path := .ok "/bin/s", cpu := .error "cpuinfo gone",
    mem := .ok 16384, disks := .ok [], memLimit := .ok none, cpuLimit := .ok none }

/-- Counterexample to C2 as stated: when the (non-fatal) CPU probe fails,
the run continues and its error message is printed to standard output —
nothing at all is written to the error stream, contradicting "its error is
reported to an error stream". -/
theorem collectorFatalAndNonfatal_cex :
    cpuFailOnly.cpu = .error "cpuinfo gone"
    ∧ ((runMain cpuFailOnly).2).isSome = true
    ∧ (runMain cpuFailOnly).1 = [(OutStream.stdout, "CPU info getting error:\t cpuinfo gone")]
    ∧ ∀ x ∈ (runMain cpuFailOnly).1, x.1 ≠ OutStream.stderr := by decide
